import Mathlib

set_option maxRecDepth 40000

/-!
Verification of the channel-data acquisition subsystem of the portfolio
repository: the markup (HTML) channel parser (`backend/telegram_html_parser.py`),
the structured (MTProto) scraper (`backend/telegram_scraper.py`), the unified
acquisition orchestrator (`backend/unified_scraper.py`), the serverless
markup path (`api/channels/[username]/latest.py`) and the in-memory result
cache (`backend/api_server.py`).

The Python code is embedded shallowly:

* Python strings are Lean `String`s; the string manipulations the code relies
  on (`strip`, `lower`, `replace`, `split`, regex digit extraction) are
  re-implemented over `List Char`, matching Python's semantics on the ASCII
  inputs the scraper handles.
* `float(...)` is modelled exactly over the decimal-literal grammar
  `[+-] digits [. digits]` as an exact fraction; strings outside this
  grammar (including `inf`/`nan`, which make the subsequent `int()` raise in
  Python) are mapped to the parse-failure branch, which yields the same
  observable result `0`.  `int(...)` applied to a float truncates toward zero.
* BeautifulSoup documents are a `Node` tree; `find`/`find_all` are the
  document-order (preorder) searches over descendants that BeautifulSoup
  performs, and `get_text(strip=True)` concatenates the stripped, non-empty
  text leaves of the subtree.
* Network fetches, wall-clock timestamps (`scraped_at`, `last_updated`) and
  Python's opaque `hash` are parameters of the embedding; file writes are
  collected in an explicit write log.
-/

/-! ### Python string primitives -/

/-- Characters treated as whitespace by Python's `str.strip()` / `\s`
(ASCII fragment: space, tab, newline, carriage return, vertical tab, form feed). -/
def pyIsSpace (c : Char) : Bool :=
  c == ' ' || c == '\t' || c == '\n' || c == '\r' || c.toNat == 11 || c.toNat == 12

/-- `str.strip()` on a character list: drop leading and trailing whitespace. -/
def trimChars (cs : List Char) : List Char :=
  ((cs.dropWhile pyIsSpace).reverse.dropWhile pyIsSpace).reverse

/-- `str.strip()`. -/
def pyStrip (s : String) : String :=
  String.mk (trimChars s.data)

/-- ASCII lower-casing of one character (`str.lower()` on the scraper's input). -/
def asciiLower (c : Char) : Char :=
  if 'A' ≤ c ∧ c ≤ 'Z' then Char.ofNat (c.toNat + 32) else c

/-- `str.lower()`. -/
def pyLower (s : String) : String :=
  String.mk (s.data.map asciiLower)

/-- One fuel step per consumed character suffices, so `fuel = length` makes this
total; it implements `str.replace(pat, '')`: delete non-overlapping occurrences
of `pat`, scanning left to right. -/
def replaceSubFuel (pat : List Char) : Nat → List Char → List Char
  | _, [] => []
  | 0, l => l
  | fuel + 1, c :: rest =>
    if pat ≠ [] ∧ List.isPrefixOf pat (c :: rest) then
      replaceSubFuel pat fuel (List.drop (pat.length - 1) rest)
    else
      c :: replaceSubFuel pat fuel rest

/-- `str.replace(pat, '')` over character lists. -/
def replaceAllSub (pat l : List Char) : List Char :=
  replaceSubFuel pat l.length l

/-- `s.replace(pat, '')`. -/
def pyReplace (s pat : String) : String :=
  String.mk (replaceAllSub pat.data s.data)

/-- `c in s` for a single-character pattern. -/
def pyContains (s : String) (c : Char) : Bool :=
  s.data.contains c

/-- Value of a digit run (`int` applied to a nonempty string of digits). -/
def digitsToNat (cs : List Char) : Nat :=
  cs.foldl (fun acc c => acc * 10 + (c.toNat - 48)) 0

/-- First maximal run of decimal digits, as found by `re.search(r'\d+', s)`. -/
def firstDigitRun (cs : List Char) : Option (List Char) :=
  let rest := cs.dropWhile (fun c => !c.isDigit)
  if rest.isEmpty then none else some (rest.takeWhile Char.isDigit)

/-- `int(s)` on a string: optional sign followed by a nonempty digit run
(whitespace stripped), `none` when Python would raise `ValueError`. -/
def pyInt (s : String) : Option Int :=
  match trimChars s.data with
  | '+' :: ds => if ds ≠ [] ∧ ds.all Char.isDigit then some (digitsToNat ds : Int) else none
  | '-' :: ds => if ds ≠ [] ∧ ds.all Char.isDigit then some (-(digitsToNat ds : Int)) else none
  | ds => if ds ≠ [] ∧ ds.all Char.isDigit then some (digitsToNat ds : Int) else none

/-- `float(s)` on the decimal-literal grammar `[+-] digits [. digits]`
(with at least one digit), after stripping whitespace.  The value is kept as
an exact unnormalised fraction `(numerator, denominator)` with denominator a
power of ten.  Strings outside the grammar yield `none`, which the callers
turn into their `except`-branch result (`inf`/`nan`, which would make the
subsequent `int()` raise in Python, land in the same branch). -/
def pyFloat (s : String) : Option (Int × Nat) :=
  let cs := trimChars s.data
  let sign : Int := match cs with
    | '-' :: _ => -1
    | _ => 1
  let body := match cs with
    | '+' :: r => r
    | '-' :: r => r
    | r => r
  let ip := body.takeWhile Char.isDigit
  let rest := body.dropWhile Char.isDigit
  match rest with
  | [] =>
    if ip.isEmpty then none
    else some (sign * (digitsToNat ip : Int), 1)
  | '.' :: fp =>
    if fp.all Char.isDigit ∧ (ip ≠ [] ∨ fp ≠ []) then
      some (sign * ((digitsToNat ip : Int) * ((10 : Nat) ^ fp.length : Nat) + (digitsToNat fp : Int)),
            (10 : Nat) ^ fp.length)
    else none
  | _ => none

/-- `int(number * scale)` where `number` is the fraction produced by
`pyFloat`: exact multiplication followed by truncation toward zero, which is
what Python's `int()` does to a float. -/
def floatTimesInt (q : Int × Nat) (scale : Nat) : Int :=
  Int.tdiv (q.1 * (scale : Int)) (q.2 : Int)

/-! ### The count parser (`TelegramHTMLParser._parse_view_count` /
`_parse_subscriber_count`) -/

/-- `text.lower().replace(' ', '').replace(',', '')` — the normalisation both
count parsers perform first. -/
def normalizeCount (s : String) : String :=
  pyReplace (pyReplace (pyLower s) " ") ","

/-- `TelegramHTMLParser._parse_view_count` (telegram_html_parser.py:339-357). -/
def parse_view_count (s : String) : Int :=
  let text := normalizeCount s
  if pyContains text 'k' then
    match pyFloat (pyReplace text "k") with
    | some q => floatTimesInt q 1000
    | none => 0
  else if pyContains text 'm' then
    match pyFloat (pyReplace text "m") with
    | some q => floatTimesInt q 1000000
    | none => 0
  else
    match firstDigitRun text.data with
    | some ds => (digitsToNat ds : Int)
    | none => 0

/-- `TelegramHTMLParser._parse_subscriber_count` (telegram_html_parser.py:317-337);
identical to the view-count parser except that the literal `"subscribers"` is
removed before the float conversion in the suffix branches. -/
def parse_subscriber_count (s : String) : Int :=
  let text := normalizeCount s
  if pyContains text 'k' then
    match pyFloat (pyReplace (pyReplace text "k") "subscribers") with
    | some q => floatTimesInt q 1000
    | none => 0
  else if pyContains text 'm' then
    match pyFloat (pyReplace (pyReplace text "m") "subscribers") with
    | some q => floatTimesInt q 1000000
    | none => 0
  else
    match firstDigitRun text.data with
    | some ds => (digitsToNat ds : Int)
    | none => 0


/-! ### BeautifulSoup document model -/

/-- An HTML node as BeautifulSoup presents it: an element with a tag name, a
(multi-valued) class attribute, further attributes and children, or a bare
text string. -/
inductive Node where
  | elem (tag : String) (classes : List String) (attrs : List (String × String)) (children : List Node)
  | text (s : String)

/-- `soup.find(tag, class_=cls)` matching: right tag and `cls` among the
element's classes. -/
def nodeMatches (tag cls : String) : Node → Bool
  | .elem t cs _ _ => t == tag && cs.contains cls
  | .text _ => false

/-- `soup.find(tag)` matching on the tag alone. -/
def nodeMatchesTag (tag : String) : Node → Bool
  | .elem t _ _ _ => t == tag
  | .text _ => false

mutual
/-- First node satisfying `p` in the subtree rooted at a node, the node
itself included, in document (preorder) order. -/
def findNode (p : Node → Bool) : Node → Option Node
  | .text s => if p (.text s) then some (.text s) else none
  | .elem t c a ch =>
    if p (.elem t c a ch) then some (.elem t c a ch) else findForest p ch
/-- First node satisfying `p` in a forest, in document order. -/
def findForest (p : Node → Bool) : List Node → Option Node
  | [] => none
  | n :: ns =>
    match findNode p n with
    | some r => some r
    | none => findForest p ns
end

/-- `element.find(...)`: BeautifulSoup searches the *descendants* of the
element, not the element itself. -/
def bsFind (p : Node → Bool) : Node → Option Node
  | .elem _ _ _ ch => findForest p ch
  | .text _ => none

mutual
/-- All nodes satisfying `p` in the subtree rooted at a node, document order. -/
def collectNode (p : Node → Bool) : Node → List Node
  | .text s => if p (.text s) then [.text s] else []
  | .elem t c a ch =>
    (if p (.elem t c a ch) then [Node.elem t c a ch] else []) ++ collectForest p ch
/-- All nodes satisfying `p` in a forest, document order. -/
def collectForest (p : Node → Bool) : List Node → List Node
  | [] => []
  | n :: ns => collectNode p n ++ collectForest p ns
end

/-- `element.find_all(...)`: all matching descendants in document order. -/
def bsFindAll (p : Node → Bool) : Node → List Node
  | .elem _ _ _ ch => collectForest p ch
  | .text _ => []

mutual
/-- The text leaves of a subtree in document order. -/
def stringsNode : Node → List String
  | .text s => [s]
  | .elem _ _ _ ch => stringsForest ch
/-- The text leaves of a forest in document order. -/
def stringsForest : List Node → List String
  | [] => []
  | n :: ns => stringsNode n ++ stringsForest ns
end

/-- `element.get_text(strip=True)`: each text leaf is stripped, leaves that
become empty are dropped, and the rest are concatenated. -/
def getTextStrip (n : Node) : String :=
  String.mk (List.flatten (((stringsNode n).map (fun s => trimChars s.data)).filter (fun l => l ≠ [])))

/-- `element.get(key)`: attribute lookup, `None` when absent. -/
def attrGet (n : Node) (key : String) : Option String :=
  match n with
  | .elem _ _ attrs _ => List.lookup key attrs
  | .text _ => none

/-- `element.get(key, default)`. -/
def attrGetD (n : Node) (key d : String) : String :=
  (attrGet n key).getD d

/-- `s.split(sep)` over characters; `[] ↦ [[]]` mirrors `''.split(sep) == ['']`. -/
def splitChars (sep : Char) : List Char → List (List Char)
  | [] => [[]]
  | c :: cs =>
    let r := splitChars sep cs
    if c == sep then [] :: r
    else
      match r with
      | h :: t => (c :: h) :: t
      | [] => [[c]]

/-- `s.split(sep)[-1]`: the component after the last separator. -/
def lastSegment (s : String) (sep : Char) : String :=
  String.mk ((splitChars sep s.data).getLastD [])

/-- `s.isdigit()` (ASCII fragment): nonempty and all decimal digits. -/
def isDigits (s : String) : Bool :=
  !s.data.isEmpty && s.data.all Char.isDigit

/-! ### Post records and the single-post parser -/

/-- The per-post dictionary built by `TelegramHTMLParser._parse_single_post`
(wall-clock-free fields). -/
structure Post where
  id : Int
  text : String
  date : Option String
  views : Int
  forwards : Int
  replies : Int
  edit_date : Option String
  media_type : Option String
  link : String
deriving DecidableEq

/-- The text-extraction step of `_parse_single_post`
(telegram_html_parser.py:268-281): find the first
`div.tgme_widget_message_text`; if it contains a nested div of the same
class use the nested one, otherwise the outer one; `''` when none exists. -/
def messageTextOf (widget : Node) : String :=
  match bsFind (nodeMatches "div" "tgme_widget_message_text") widget with
  | some text_elem =>
    match bsFind (nodeMatches "div" "tgme_widget_message_text") text_elem with
    | some nested_text_elem => getTextStrip nested_text_elem
    | none => getTextStrip text_elem
  | none => ""

/-- `TelegramHTMLParser._parse_single_post` (telegram_html_parser.py:257-315).
`pyHash` stands for Python's opaque `hash`, used for non-numeric post ids. -/
def parse_single_post (pyHash : String → Int) (widget : Node) (channel_username : String) :
    Option Post :=
  let post_id := lastSegment (attrGetD widget "data-post" "") '/'
  if post_id = "" then none
  else
    let text := messageTextOf widget
    let views : Int :=
      match bsFind (nodeMatches "span" "tgme_widget_message_views") widget with
      | some views_elem => parse_view_count (getTextStrip views_elem)
      | none => 0
    let date_str : Option String :=
      match bsFind (nodeMatchesTag "time") widget with
      | some date_elem => attrGet date_elem "datetime"
      | none => none
    let media_type : Option String :=
      if (bsFind (nodeMatches "a" "tgme_widget_message_photo_wrap") widget).isSome then some "photo"
      else if (bsFind (nodeMatches "video" "tgme_widget_message_video") widget).isSome then some "video"
      else if (bsFind (nodeMatches "div" "tgme_widget_message_document") widget).isSome then
        some "document"
      else none
    some
      { id := if isDigits post_id then (digitsToNat post_id.data : Int) else pyHash post_id,
        text := text, date := date_str, views := views, forwards := 0, replies := 0,
        edit_date := none, media_type := media_type,
        link := "https://t.me/" ++ channel_username ++ "/" ++ post_id }

/-! ### Sorting: Python's stable `list.sort(key=..., reverse=True)` -/

/-- Code-point comparison `a <= b` on character lists (Python string order). -/
def charsLe : List Char → List Char → Bool
  | [], _ => true
  | _ :: _, [] => false
  | a :: as, b :: bs =>
    if a.toNat < b.toNat then true
    else if b.toNat < a.toNat then false
    else charsLe as bs

/-- Code-point comparison `a < b` on character lists. -/
def charsLt : List Char → List Char → Bool
  | [], [] => false
  | [], _ :: _ => true
  | _ :: _, [] => false
  | a :: as, b :: bs =>
    if a.toNat < b.toNat then true
    else if b.toNat < a.toNat then false
    else charsLt as bs

/-- Insert `x` into a descending-sorted list, before the first element whose
key is `<=` the key of `x`; combined with a right fold this is exactly the
stable descending sort `list.sort(key=key, reverse=True)` performs. -/
def insertDesc {α : Type} (key : α → String) (x : α) : List α → List α
  | [] => [x]
  | y :: ys =>
    if charsLe (key y).data (key x).data then x :: y :: ys
    else y :: insertDesc key x ys

/-- Stable sort by `key`, descending (`list.sort(key=key, reverse=True)`). -/
def sortDesc {α : Type} (key : α → String) (l : List α) : List α :=
  l.foldr (insertDesc key) []

/-! ### The per-page post parser (`TelegramHTMLParser.parse_channel_posts`) -/

/-- `HTMLParserConfig.posts_limit` (telegram_html_parser.py:47). -/
def posts_limit : Nat := 50

/-- Truthiness of `post.get('date')`: present and nonempty. -/
def dateTruthy (p : Post) : Bool :=
  match p.date with
  | some s => !(s == "")
  | none => false

/-- The sort key `lambda x: x['date']` (dated posts always carry `some _`). -/
def dateKey (p : Post) : String :=
  p.date.getD ""

/-- The raw per-widget pass of `parse_channel_posts`: every
`div.tgme_widget_message` on the page through `_parse_single_post`,
id-less widgets dropped. -/
def rawPosts (pyHash : String → Int) (page : Node) (ch : String) : List Post :=
  (bsFindAll (nodeMatches "div" "tgme_widget_message") page).filterMap
    (fun w => parse_single_post pyHash w ch)

/-- `TelegramHTMLParser.parse_channel_posts` (telegram_html_parser.py:202-255):
split into dated/undated, sort the dated part by date string descending
(stable), append the undated part, truncate to `posts_limit`. -/
def parse_channel_posts (pyHash : String → Int) (page : Node) (ch : String) : List Post :=
  let posts := rawPosts pyHash page ch
  let posts_with_dates := posts.filter dateTruthy
  let posts_without_dates := posts.filter (fun p => !dateTruthy p)
  let sorted_posts := sortDesc dateKey posts_with_dates ++ posts_without_dates
  sorted_posts.take posts_limit

/-! ### Channel info (`TelegramHTMLParser.parse_channel_info`) -/

/-- The channel-info dictionary built by `parse_channel_info`
(wall-clock `last_updated` omitted from the embedding). -/
structure ChannelInfo where
  id : Int
  title : String
  username : String
  description : String
  subscribers_count : Int
  verified : Bool
  scam : Bool
  restricted : Bool
  avatar_url : Option String
  source : String
deriving DecidableEq

/-- `TelegramHTMLParser.parse_channel_info` (telegram_html_parser.py:141-200).
In the source the only way to return `None` is the `except` branch; with a
well-formed parsed document every lookup degrades to a default instead, so
the embedding always returns `some`. -/
def parse_channel_info (pyHash : String → Int) (page : Node) (channel_username : String) :
    Option ChannelInfo :=
  let title :=
    match bsFind (nodeMatches "div" "tgme_channel_info_header_title") page with
    | some e => getTextStrip e
    | none => channel_username
  let description :=
    match bsFind (nodeMatches "div" "tgme_channel_info_description") page with
    | some e => getTextStrip e
    | none => ""
  let subscribers :=
    match bsFind (nodeMatches "div" "tgme_channel_info_counter") page with
    | some e => parse_subscriber_count (getTextStrip e)
    | none => 0
  let verified := (bsFind (nodeMatches "i" "verified-icon") page).isSome
  let avatar_url :=
    match bsFind (nodeMatches "img" "tgme_page_photo_image") page with
    | some e =>
      match attrGet e "src" with
      | some s => if s == "" then none else some s
      | none => none
    | none => none
  some
    { id := pyHash channel_username, title := title, username := channel_username,
      description := description, subscribers_count := subscribers, verified := verified,
      scam := false, restricted := false, avatar_url := avatar_url, source := "html_parser" }

/-! ### Scrape results, the two strategies and the orchestrator -/

/-- The per-channel result dictionary shared by both strategies
(`scraped_at` omitted).  `parser = none` models the absence of the
`'parser': 'html'` key: the MTProto scraper and the failure branches never
set it. -/
structure ScrapeOutcome where
  channel_info : Option ChannelInfo
  posts : List Post
  success : Bool
  parser : Option String
  error : Option String
deriving DecidableEq

/-- A `json.dump` of a per-channel result map into a file. -/
structure FileWrite where
  file : String
  doc : List (String × ScrapeOutcome)
deriving DecidableEq

/-- The documents written to file `f`, oldest first. -/
def writesTo (ws : List FileWrite) (f : String) : List (List (String × ScrapeOutcome)) :=
  (ws.filter (fun w => w.file == f)).map (fun w => w.doc)

/-- The content file `f` ends up with (`none`: never written, left as it was). -/
def finalContent (ws : List FileWrite) (f : String) : Option (List (String × ScrapeOutcome)) :=
  (writesTo ws f).getLast?

/-- `TelegramHTMLParser.scrape_channel` (telegram_html_parser.py:359-394);
`fetched` is the result of `fetch_channel_html`. -/
def html_scrape_channel (pyHash : String → Int) (fetched : Option Node) (ch : String) :
    ScrapeOutcome :=
  match fetched with
  | none =>
    { channel_info := none, posts := [], success := false, parser := none,
      error := some "Failed to fetch channel HTML" }
  | some page =>
    let info := parse_channel_info pyHash page ch
    { channel_info := info, posts := parse_channel_posts pyHash page ch,
      success := info.isSome, parser := some "html", error := none }

/-- `TelegramHTMLParser.scrape_all_channels` (telegram_html_parser.py:396-428):
scrape every configured channel in order, then dump the result map to
`channels_data_html.json` unconditionally. -/
def html_scrape_all_channels (pyHash : String → Int) (channels : List String)
    (fetch : String → Option Node) : List (String × ScrapeOutcome) × List FileWrite :=
  let results := channels.map (fun ch => (ch, html_scrape_channel pyHash (fetch ch) ch))
  (results, [{ file := "channels_data_html.json", doc := results }])

/-- The outcome of running a piece of Python code: a value or a raised
exception. -/
inductive PyResult (α : Type) where
  | ok (a : α)
  | exn (msg : String)

/-- `TelegramScraper.scrape_channel` (telegram_scraper.py:214-251): the
channel-info and posts sub-fetches run with `return_exceptions=True`; an
exception in either is replaced by `None` / `[]`, and
`success = channel_info is not None`. -/
def mt_scrape_channel (info : PyResult (Option ChannelInfo)) (posts : PyResult (List Post)) :
    ScrapeOutcome :=
  let channel_info := match info with
    | .ok i => i
    | .exn _ => none
  let posts := match posts with
    | .ok p => p
    | .exn _ => []
  { channel_info := channel_info, posts := posts, success := channel_info.isSome,
    parser := none, error := none }

/-- The record the per-channel `except` branch of
`TelegramScraper.scrape_all_channels` stores (telegram_scraper.py:277-281):
only `error`/`success` keys, no channel info, posts or parser tag. -/
def mt_error_outcome (msg : String) : ScrapeOutcome :=
  { channel_info := none, posts := [], success := false, parser := none, error := some msg }

/-- The per-channel result map the MTProto scraper builds. -/
def mt_results (channels : List String) (per : String → PyResult ScrapeOutcome) :
    List (String × ScrapeOutcome) :=
  channels.map (fun ch =>
    (ch, match per ch with
         | .ok o => o
         | .exn m => mt_error_outcome m))

/-- `TelegramScraper.scrape_all_channels` (telegram_scraper.py:253-293).
When the client initialises, the result map is built and **dumped to
`channels_data.json` unconditionally** — even when every channel failed.
When initialisation fails the function returns the `{'error': ...}` dict
(modelled as `none`) and writes nothing. -/
def mt_scrape_all_channels (initOk : Bool) (channels : List String)
    (per : String → PyResult ScrapeOutcome) :
    Option (List (String × ScrapeOutcome)) × List FileWrite :=
  if initOk then
    (some (mt_results channels per),
     [{ file := "channels_data.json", doc := mt_results channels per }])
  else (none, [])

/-- `sum(1 for data in results.values() if data.get('success'))`. -/
def successCount (r : List (String × ScrapeOutcome)) : Nat :=
  (r.filter (fun e => e.2.success)).length

/-- `UnifiedTelegramScraper.scrape_with_mtproto` (unified_scraper.py:84-113):
skipped when not configured; the `{'error': ...}` return makes the success
count raise, which the `except` turns into `None`; zero successes also yield
`None`.  File writes performed inside the scraper survive either way. -/
def scrape_with_mtproto (mtEnabled initOk : Bool) (channels : List String)
    (per : String → PyResult ScrapeOutcome) :
    Option (List (String × ScrapeOutcome)) × List FileWrite :=
  if mtEnabled then
    match mt_scrape_all_channels initOk channels per with
    | (none, w) => (none, w)
    | (some r, w) => (if 0 < successCount r then some r else none, w)
  else (none, [])

/-- `UnifiedTelegramScraper.scrape_with_html` (unified_scraper.py:115-144). -/
def scrape_with_html (htmlEnabled : Bool) (pyHash : String → Int) (channels : List String)
    (fetch : String → Option Node) :
    Option (List (String × ScrapeOutcome)) × List FileWrite :=
  if htmlEnabled then
    let hr := html_scrape_all_channels pyHash channels fetch
    (if 0 < successCount hr.1 then some hr.1 else none, hr.2)
  else (none, [])

/-- The `_metadata` value attached by the orchestrator (`scraped_at` omitted). -/
structure RunMetadata where
  scraper_type : String
  mtproto_available : Bool
  html_available : Bool
deriving DecidableEq

/-- A value of the dictionary the orchestrator returns: a channel record or
the run metadata. -/
inductive Entry where
  | chan (o : ScrapeOutcome)
  | meta (m : RunMetadata)
deriving DecidableEq

/-- The `_metadata` record the orchestrator attaches. -/
def runMeta (mtEnabled htmlEnabled : Bool) : RunMetadata :=
  { scraper_type := "unified", mtproto_available := mtEnabled, html_available := htmlEnabled }

/-- `UnifiedTelegramScraper.scrape_all` (unified_scraper.py:146-186): try
MTProto, fall back to HTML, on total failure return the aggregate error dict
(modelled as `none`) without writing; on success dump the result map to
`channels_data.json` and only *then* attach `_metadata` to the returned
dict. -/
def scrape_all (mtEnabled htmlEnabled initOk : Bool) (per : String → PyResult ScrapeOutcome)
    (pyHash : String → Int) (channels : List String) (fetch : String → Option Node) :
    Option (List (String × Entry)) × List FileWrite :=
  let mt := scrape_with_mtproto mtEnabled initOk channels per
  let stage2 :=
    match mt.1 with
    | some r => (some r, mt.2)
    | none =>
      let h := scrape_with_html htmlEnabled pyHash channels fetch
      (h.1, mt.2 ++ h.2)
  match stage2.1 with
  | none => (none, stage2.2)
  | some r =>
    if r.isEmpty then (none, stage2.2)
    else
      (some (r.map (fun e => (e.1, Entry.chan e.2)) ++
         [("_metadata", Entry.meta (runMeta mtEnabled htmlEnabled))]),
       stage2.2 ++ [{ file := "channels_data.json", doc := r }])

/-! ### The serverless markup path (`api/channels/[username]/latest.py`) -/

namespace Latest

/-- What the regular expressions of `handler.parse_telegram_html` extract from
one message block: the post id captured from `data-post`, the group of the
nested double-div text pattern, the group of the single-div fallback pattern,
the views span content and the `datetime` attribute of the time element
(`none` when the respective `re.search` finds no match). -/
structure MsgBlock where
  postId : String
  nestedText : Option String
  singleText : Option String
  viewsStr : Option String
  dateAttr : Option String
deriving DecidableEq

/-- A post entry of the serverless parser (`latest.py:192-197`). -/
structure LPost where
  id : String
  text : String
  views : Int
  date : String
deriving DecidableEq

/-- Position just after the first `>`, `none` when there is none. -/
def afterGt : List Char → Option (List Char)
  | [] => none
  | c :: cs => if c == '>' then some cs else afterGt cs

/-- `re.sub(r'<[^>]+>', '', s)` with one fuel unit per consumed character:
at a `<`, drop through the first following `>` provided at least one
character sits between them; otherwise keep scanning. -/
def stripTagsFuel : Nat → List Char → List Char
  | _, [] => []
  | 0, l => l
  | fuel + 1, c :: rest =>
    if c == '<' then
      match rest with
      | r :: _ =>
        if r == '>' then c :: stripTagsFuel fuel rest
        else
          match afterGt rest with
          | some rem => stripTagsFuel fuel rem
          | none => c :: stripTagsFuel fuel rest
      | [] => [c]
    else c :: stripTagsFuel fuel rest

/-- `re.sub(r'<[^>]+>', '', s)`: remove complete tags. -/
def strip_tags (s : String) : String :=
  String.mk (stripTagsFuel s.data.length s.data)

/-- `re.sub(r'\s+', ' ', s)`: collapse every whitespace run to one space;
the flag records whether the previous character was whitespace. -/
def collapseWs : Bool → List Char → List Char
  | _, [] => []
  | prev, c :: rest =>
    if pyIsSpace c then
      if prev then collapseWs true rest else ' ' :: collapseWs true rest
    else c :: collapseWs false rest

/-- The text clean-up of `latest.py:161-163`: strip tags, collapse
whitespace, strip. -/
def clean_text (s : String) : String :=
  String.mk (trimChars (collapseWs false (strip_tags s).data))

/-- `s[:n]`. -/
def strTake (n : Nat) (s : String) : String :=
  String.mk (s.data.take n)

/-- The text match of `latest.py:150-156`: the nested double-div pattern is
tried first, the single-div pattern is the fallback. -/
def text_match (b : MsgBlock) : Option String :=
  match b.nestedText with
  | some r => some r
  | none => b.singleText

/-- The text extraction of `latest.py:150-168`: clean the matched group and
cap it at 300 characters, appending `'...'`; `''` when no pattern matched. -/
def extract_text (b : MsgBlock) : String :=
  match text_match b with
  | some raw =>
    let t := clean_text raw
    if 300 < t.data.length then strTake 300 t ++ "..." else t
  | none => ""

/-- The views extraction of `latest.py:174-182`:
`int(group.strip().replace(' ', ''))`, `0` on `ValueError` or no match. -/
def views_of (b : MsgBlock) : Int :=
  match b.viewsStr with
  | some vs => (pyInt (String.mk (replaceAllSub [' '] (trimChars vs.data)))).getD 0
  | none => 0

/-- The per-block loop of `latest.py:146-201`: skip blocks with no
extractable text, skip blocks with no date, keep the rest in encounter
order. -/
def collect_posts : List MsgBlock → List LPost
  | [] => []
  | b :: bs =>
    let text := extract_text b
    if text = "" then collect_posts bs
    else
      match b.dateAttr with
      | some d =>
        if d = "" then collect_posts bs
        else { id := b.postId, text := text, views := views_of b, date := d } :: collect_posts bs
      | none => collect_posts bs

/-- The post list `handler.parse_telegram_html` ends up with
(`latest.py:146-206`): at most 20 blocks are processed, textless and
dateless ones are skipped, and the survivors are sorted by date string,
newest first (stable). -/
def parse_posts (blocks : List MsgBlock) : List LPost :=
  sortDesc (fun p => p.date) (collect_posts (blocks.take 20))

end Latest

/-! ### The result cache (`backend/api_server.py`, class `DataCache`) -/

/-- `APIConfig.cache_ttl` (api_server.py:48). -/
def cache_ttl : Nat := 3600

/-- `DataCache` state: the `_cache` and `_timestamps` dicts, as
insertion-ordered association lists.  `set` and the eviction branch of `get`
always update the two in lockstep, so their key sets coincide on every
reachable state. -/
structure DataCache (α : Type) where
  cache : List (String × α)
  timestamps : List (String × Nat)
deriving DecidableEq

/-- Python dict assignment `m[k] = v`: overwrite in place, or append. -/
def dictSet {β : Type} (m : List (String × β)) (k : String) (v : β) : List (String × β) :=
  if m.any (fun e => e.1 == k) then m.map (fun e => if e.1 == k then (k, v) else e)
  else m ++ [(k, v)]

/-- Python `del m[k]`. -/
def dictDel {β : Type} (m : List (String × β)) (k : String) : List (String × β) :=
  m.filter (fun e => e.1 != k)

/-- `DataCache.get` (api_server.py:88-97), with `datetime.now()` passed in as
`now` (seconds): fresh entries are returned, stale ones are deleted from both
dicts and `None` is returned.  The `timestamps`-miss branch is unreachable
from reachable states (Python would raise `KeyError`). -/
def cacheGet {α : Type} (s : DataCache α) (now : Nat) (key : String) :
    Option α × DataCache α :=
  match List.lookup key s.cache with
  | some v =>
    match List.lookup key s.timestamps with
    | some ts =>
      if now - ts < cache_ttl then (some v, s)
      else (none, { cache := dictDel s.cache key, timestamps := dictDel s.timestamps key })
    | none => (none, s)
  | none => (none, s)

/-- `DataCache.set` (api_server.py:99-102): store the value with the current
timestamp, unconditionally overwriting. -/
def cacheSet {α : Type} (s : DataCache α) (now : Nat) (key : String) (v : α) : DataCache α :=
  { cache := dictSet s.cache key v, timestamps := dictSet s.timestamps key now }

/-! ### Concrete fixtures and oracles -/

/-- A stand-in for Python's opaque `hash`. -/
def pyHash0 : String → Int := fun _ => 0

/-- The inner text container of the nesting example: carries `"Hello"`. -/
def helloInner : Node :=
  .elem "div" ["tgme_widget_message_text"] [] [.text "Hello"]

/-- The outer text container: same class, wraps the inner one plus
extraneous whitespace. -/
def helloOuter : Node :=
  .elem "div" ["tgme_widget_message_text"] [] [.text "  \n ", helloInner, .text "   "]

/-- A message container holding the nested pair. -/
def helloWidget : Node :=
  .elem "div" ["tgme_widget_message"] [("data-post", "c/5")] [helloOuter]

/-- A concrete channel-info record. -/
def sampleInfo : ChannelInfo :=
  { id := 1, title := "t", username := "u", description := "", subscribers_count := 0,
    verified := false, scam := false, restricted := false, avatar_url := none,
    source := "html_parser" }

/-- A concrete post record. -/
def samplePost : Post :=
  { id := 1, text := "x", date := some "2024-01-01T00:00:00+00:00", views := 0, forwards := 0,
    replies := 0, edit_date := none, media_type := none, link := "https://t.me/u/1" }

/-- A message container with a given post id, text and a fixed timestamp. -/
def tieWidget (n t : String) : Node :=
  .elem "div" ["tgme_widget_message"] [("data-post", "c/" ++ n)]
    [.elem "div" ["tgme_widget_message_text"] [] [.text t],
     .elem "time" [] [("datetime", "2024-01-01T00:00:00+00:00")] []]

/-- A page with two posts bearing the *same* timestamp. -/
def tiePage : Node := .elem "html" [] [] [tieWidget "1" "a", tieWidget "2" "b"]

/-- A message container with an id and a timestamp but no text element. -/
def textlessWidget : Node :=
  .elem "div" ["tgme_widget_message"] [("data-post", "c/9")]
    [.elem "time" [] [("datetime", "2024-01-01T00:00:00+00:00")] []]

/-- A page holding only the textless container. -/
def textlessPage : Node := .elem "html" [] [] [textlessWidget]

/-- The block whose text survives as `"post one"` (timestamp T-1h). -/
def demoBlock1 : Latest.MsgBlock :=
  { postId := "1", nestedText := none, singleText := some "post one", viewsStr := some "100",
    dateAttr := some "2024-05-01T11:00:00+00:00" }

/-- The textless block (timestamp T-3h) — must be dropped. -/
def demoBlock2 : Latest.MsgBlock :=
  { postId := "2", nestedText := none, singleText := none, viewsStr := some "50",
    dateAttr := some "2024-05-01T09:00:00+00:00" }

/-- The block whose text survives as `"post three"` (timestamp T-2h). -/
def demoBlock3 : Latest.MsgBlock :=
  { postId := "3", nestedText := none, singleText := some "post three", viewsStr := none,
    dateAttr := some "2024-05-01T10:00:00+00:00" }

/-- The demo channel: posts at T-1h, T-3h (no text) and T-2h, in page order. -/
def demoBlocks : List Latest.MsgBlock := [demoBlock1, demoBlock2, demoBlock3]

/-- The expected normalised head entry (T-1h). -/
def demoPost1 : Latest.LPost :=
  { id := "1", text := "post one", views := 100, date := "2024-05-01T11:00:00+00:00" }

/-- The expected normalised second entry (T-2h). -/
def demoPost3 : Latest.LPost :=
  { id := "3", text := "post three", views := 0, date := "2024-05-01T10:00:00+00:00" }

/-- A 301-character text. -/
def longText : String := String.mk (List.replicate 301 'a')

/-- A backend message container whose text is 301 characters long. -/
def longWidget : Node :=
  .elem "div" ["tgme_widget_message"] [("data-post", "c/7")]
    [.elem "div" ["tgme_widget_message_text"] [] [.text longText]]

/-- The serverless block carrying the 301-character text. -/
def longBlock : Latest.MsgBlock :=
  { postId := "7", nestedText := some longText, singleText := none, viewsStr := none,
    dateAttr := some "2024-01-01T00:00:00+00:00" }

/-- An (empty but well-formed) channel page: parsing it yields default
channel info, hence a successful scrape. -/
def emptyPage : Node := .elem "html" [] [] []

/-- A fetch oracle for which every channel page loads. -/
def oneFetch : String → Option Node := fun _ => some emptyPage

/-- A fetch oracle for which only channel `"a"` loads. -/
def cxFetch : String → Option Node := fun ch => if ch = "a" then some emptyPage else none

/-- A fetch oracle for which no page loads. -/
def noFetch : String → Option Node := fun _ => none

/-- A structured-path per-channel oracle that always raises. -/
def cxPer : String → PyResult ScrapeOutcome := fun _ => PyResult.exn "boom"

/-- The dictionary a one-channel markup-fallback run returns. -/
def demoRunDoc : List (String × Entry) :=
  [("a", Entry.chan (html_scrape_channel pyHash0 (some emptyPage) "a")),
   ("_metadata", Entry.meta (runMeta false true))]

/-! ### Helper lemmas: the code-point order -/

theorem charsLe_refl : ∀ l : List Char, charsLe l l = true
  | [] => rfl
  | c :: cs => by simp [charsLe, Nat.lt_irrefl, charsLe_refl cs]

theorem charsLe_total : ∀ a b : List Char, charsLe a b = true ∨ charsLe b a = true
  | [], _ => Or.inl rfl
  | _ :: _, [] => Or.inr rfl
  | a :: as, b :: bs => by
    by_cases h1 : a.toNat < b.toNat
    · left; simp [charsLe, h1]
    · by_cases h2 : b.toNat < a.toNat
      · right; simp [charsLe, h2]
      · cases charsLe_total as bs with
        | inl h => left; simp [charsLe, h1, h2, h]
        | inr h => right; simp [charsLe, h1, h2, h]

theorem charsLe_trans : ∀ a b c : List Char,
    charsLe a b = true → charsLe b c = true → charsLe a c = true := by
  intro a
  induction a with
  | nil => intro b c _ _; rfl
  | cons x xs ih =>
    intro b c h1 h2
    cases b with
    | nil => simp [charsLe] at h1
    | cons y ys =>
      cases c with
      | nil => simp [charsLe] at h2
      | cons z zs =>
        simp only [charsLe] at h1 h2 ⊢
        by_cases hxy : x.toNat < y.toNat
        · by_cases hyz : y.toNat < z.toNat
          · simp [show x.toNat < z.toNat from Nat.lt_trans hxy hyz]
          · by_cases hzy : z.toNat < y.toNat
            · simp [hyz, hzy] at h2
            · simp [show x.toNat < z.toNat by omega]
        · by_cases hyx : y.toNat < x.toNat
          · simp [hxy, hyx] at h1
          · have hxyeq : x.toNat = y.toNat := by omega
            by_cases hyz : y.toNat < z.toNat
            · simp [show x.toNat < z.toNat by omega]
            · by_cases hzy : z.toNat < y.toNat
              · simp [hyz, hzy] at h2
              · simp only [hxy, hyx, if_neg, if_false] at h1
                simp only [hyz, hzy, if_neg, if_false] at h2
                simp only [show ¬ x.toNat < z.toNat by omega, show ¬ z.toNat < x.toNat by omega,
                  if_false]
                exact ih ys zs (by simpa [hxy, hyx] using h1) (by simpa [hyz, hzy] using h2)

theorem charsLe_of_not_le {a b : List Char} (h : ¬ charsLe a b = true) : charsLe b a = true :=
  (charsLe_total a b).resolve_left h

/-! ### Helper lemmas: the stable descending sort -/

theorem mem_insertDesc {α : Type} (key : α → String) (x : α) :
    ∀ (l : List α) (z : α), z ∈ insertDesc key x l ↔ z = x ∨ z ∈ l := by
  intro l
  induction l with
  | nil => intro z; simp [insertDesc]
  | cons y ys ih =>
    intro z
    simp only [insertDesc]
    by_cases h : charsLe (key y).data (key x).data
    · simp only [if_pos h, List.mem_cons]
    · simp only [if_neg h, List.mem_cons, ih]
      tauto

theorem pairwise_insertDesc {α : Type} (key : α → String) (x : α) :
    ∀ l, List.Pairwise (fun a b => charsLe (key b).data (key a).data = true) l →
      List.Pairwise (fun a b => charsLe (key b).data (key a).data = true) (insertDesc key x l) := by
  intro l
  induction l with
  | nil => intro _; simp [insertDesc]
  | cons y ys ih =>
    intro hp
    rw [List.pairwise_cons] at hp
    obtain ⟨hy, hys⟩ := hp
    simp only [insertDesc]
    by_cases h : charsLe (key y).data (key x).data
    · rw [if_pos h]
      refine List.Pairwise.cons ?_ (List.Pairwise.cons hy hys)
      intro z hz
      rcases List.mem_cons.mp hz with rfl | hz
      · exact h
      · exact charsLe_trans _ _ _ (hy z hz) h
    · rw [if_neg h]
      refine List.Pairwise.cons ?_ (ih hys)
      intro z hz
      rcases (mem_insertDesc key x ys z).mp hz with rfl | hz
      · exact charsLe_of_not_le h
      · exact hy z hz

theorem sortDesc_pairwise {α : Type} (key : α → String) :
    ∀ l : List α,
      List.Pairwise (fun a b => charsLe (key b).data (key a).data = true) (sortDesc key l) := by
  intro l
  induction l with
  | nil => simp [sortDesc]
  | cons x xs ih => exact pairwise_insertDesc key x _ ih

theorem insertDesc_perm {α : Type} (key : α → String) (x : α) :
    ∀ l : List α, List.Perm (insertDesc key x l) (x :: l) := by
  intro l
  induction l with
  | nil => exact List.Perm.refl _
  | cons y ys ih =>
    simp only [insertDesc]
    by_cases h : charsLe (key y).data (key x).data
    · rw [if_pos h]
    · rw [if_neg h]
      exact List.Perm.trans (List.Perm.cons y ih) (List.Perm.swap x y ys)

theorem sortDesc_perm {α : Type} (key : α → String) :
    ∀ l : List α, List.Perm (sortDesc key l) l := by
  intro l
  induction l with
  | nil => exact List.Perm.refl _
  | cons x xs ih =>
    exact List.Perm.trans (insertDesc_perm key x (sortDesc key xs)) (List.Perm.cons x ih)

theorem filter_insertDesc {α : Type} (key : α → String) (x : α) (K : String) :
    ∀ l : List α,
      (insertDesc key x l).filter (fun z => key z == K) =
        if key x == K then x :: l.filter (fun z => key z == K)
        else l.filter (fun z => key z == K) := by
  intro l
  induction l with
  | nil =>
    by_cases hx : key x == K <;> simp [insertDesc, List.filter_cons, hx]
  | cons y ys ih =>
    simp only [insertDesc]
    by_cases h : charsLe (key y).data (key x).data
    · rw [if_pos h]
      by_cases hx : key x == K <;> simp [List.filter_cons, hx]
    · rw [if_neg h]
      by_cases hy : key y == K
      · by_cases hx : key x == K
        · exfalso
          apply h
          have hxy : key y = key x := by
            have h1 : key y = K := by simpa using hy
            have h2 : key x = K := by simpa using hx
            rw [h1, h2]
          rw [hxy]
          exact charsLe_refl _
        · simp [List.filter_cons, hy, hx, ih]
      · simp [List.filter_cons, hy, ih]

theorem sortDesc_filter {α : Type} (key : α → String) (K : String) :
    ∀ l : List α,
      (sortDesc key l).filter (fun z => key z == K) = l.filter (fun z => key z == K) := by
  intro l
  induction l with
  | nil => rfl
  | cons x xs ih =>
    show (insertDesc key x (sortDesc key xs)).filter _ = _
    rw [filter_insertDesc]
    by_cases hx : key x == K <;> simp [List.filter_cons, hx, ih]

/-! ### Helper lemmas: association lists as Python dicts -/

theorem lookupCons {β : Type} (k a : String) (b : β) (t : List (String × β)) :
    List.lookup k ((a, b) :: t) = if k == a then some b else List.lookup k t := by
  simp only [List.lookup]
  by_cases h : k == a
  · simp [h]
  · simp [h]

theorem lookup_map_overwrite {β : Type} (k : String) (v : β) :
    ∀ m : List (String × β),
      m.any (fun e => e.1 == k) = true →
      List.lookup k (m.map (fun e => if e.1 == k then (k, v) else e)) = some v := by
  intro m
  induction m with
  | nil => intro h; simp at h
  | cons e es ih =>
    intro h
    obtain ⟨a, b⟩ := e
    by_cases he : (a == k) = true
    · have ha : a = k := by simpa using he
      simp [List.map, ha, lookupCons]
    · have h' : es.any (fun e => e.1 == k) = true := by
        simpa [he] using h
      have hka : ¬ (k == a) = true := by
        simp only [beq_iff_eq]
        intro hh
        exact he (by simp [hh])
      have hhead : (if ((a, b) : String × β).1 == k then (k, v) else (a, b)) = (a, b) := by
        simp [he]
      rw [List.map_cons, hhead, lookupCons, if_neg hka]
      exact ih h'

theorem lookup_append_of_none {β : Type} (k : String) :
    ∀ (m m' : List (String × β)),
      List.lookup k m = none → List.lookup k (m ++ m') = List.lookup k m' := by
  intro m m' h
  induction m with
  | nil => simp
  | cons e es ih =>
    obtain ⟨a, b⟩ := e
    rw [lookupCons] at h
    by_cases hka : (k == a) = true
    · rw [if_pos hka] at h; exact absurd h (by simp)
    · rw [if_neg (by simp [hka])] at h
      rw [List.cons_append, lookupCons, if_neg (by simp [hka])]
      exact ih h

theorem lookup_none_of_no_key {β : Type} (k : String) :
    ∀ m : List (String × β), m.any (fun e => e.1 == k) = false → List.lookup k m = none := by
  intro m
  induction m with
  | nil => intro _; rfl
  | cons e es ih =>
    intro h
    obtain ⟨a, b⟩ := e
    rw [List.any_cons] at h
    have hparts := Bool.or_eq_false_iff.mp h
    rw [lookupCons, if_neg (by
      simp only [beq_iff_eq]
      intro hh
      have := hparts.1
      simp [hh] at this)]
    exact ih hparts.2

theorem lookup_dictSet_self {β : Type} (k : String) (v : β) :
    ∀ m : List (String × β), List.lookup k (dictSet m k v) = some v := by
  intro m
  rw [dictSet]
  by_cases h : m.any (fun e => e.1 == k)
  · rw [if_pos h]
    exact lookup_map_overwrite k v m h
  · rw [if_neg h]
    have hnone : List.lookup k m = none :=
      lookup_none_of_no_key k m (Bool.eq_false_iff.mpr h)
    rw [lookup_append_of_none k m _ hnone, lookupCons, if_pos (by simp)]

theorem lookup_dictDel_self {β : Type} (k : String) :
    ∀ m : List (String × β), List.lookup k (dictDel m k) = none := by
  intro m
  induction m with
  | nil => rfl
  | cons e es ih =>
    obtain ⟨a, b⟩ := e
    rw [dictDel] at ih ⊢
    by_cases ha : (a == k) = true
    · have hdrop : (((a, b) : String × β).1 != k) = false := by
        simp [bne, ha]
      rw [List.filter_cons, hdrop]
      simpa using ih
    · have hkeep : (((a, b) : String × β).1 != k) = true := by
        simp only [bne, ha]
        rfl
      rw [List.filter_cons, hkeep]
      simp only [if_true]
      rw [lookupCons, if_neg (by
        simp only [beq_iff_eq]
        intro hh
        exact ha (by simp [hh]))]
      exact ih

theorem lookup_map_pair {β : Type} (f : String → β) (k : String) :
    ∀ channels : List String, k ∈ channels →
      List.lookup k (channels.map (fun c => (c, f c))) = some (f k) := by
  intro channels
  induction channels with
  | nil => intro h; simp at h
  | cons c cs ih =>
    intro h
    rw [List.map_cons, lookupCons]
    by_cases hk : (k == c) = true
    · have : k = c := by simpa using hk
      simp [hk, this]
    · rcases List.mem_cons.mp h with rfl | hmem
      · simp at hk
      · rw [if_neg (by simp_all)]
        exact ih hmem

/-! ### Concrete fixtures -/

/-- `p.text = messageTextOf widget` for every post `_parse_single_post`
emits: the widget's id is nonempty exactly when a post is produced, and the
stored text is the nested-aware extraction, unmodified. -/
theorem parse_single_post_eq_some (pyHash : String → Int) (widget : Node) (ch : String)
    (hid : lastSegment (attrGetD widget "data-post" "") '/' ≠ "") :
    ∃ p, parse_single_post pyHash widget ch = some p ∧ p.text = messageTextOf widget := by
  simp only [parse_single_post, if_neg hid]
  exact ⟨_, rfl, rfl⟩

/-- Claim C1: when the text container holds a nested container of the same
class, the extracted post text is the inner container's (stripped) text;
without nesting it is the outer container's text; on the concrete nested
`"Hello"` widget the extraction yields exactly `"Hello"`. -/
theorem c1_inner_text_preferred (pyHash : String → Int) (widget outer inner : Node) (ch : String)
    (hid : lastSegment (attrGetD widget "data-post" "") '/' ≠ "")
    (houter : bsFind (nodeMatches "div" "tgme_widget_message_text") widget = some outer) :
    (bsFind (nodeMatches "div" "tgme_widget_message_text") outer = some inner →
      ∃ p, parse_single_post pyHash widget ch = some p ∧ p.text = getTextStrip inner) ∧
    (bsFind (nodeMatches "div" "tgme_widget_message_text") outer = none →
      ∃ p, parse_single_post pyHash widget ch = some p ∧ p.text = getTextStrip outer) ∧
    (parse_single_post pyHash0 helloWidget "c").map Post.text = some "Hello" := by
  refine ⟨?_, ?_, by rfl⟩
  · intro hinner
    obtain ⟨p, hp, htext⟩ := parse_single_post_eq_some pyHash widget ch hid
    exact ⟨p, hp, by rw [htext]; simp only [messageTextOf, houter, hinner]⟩
  · intro hinner
    obtain ⟨p, hp, htext⟩ := parse_single_post_eq_some pyHash widget ch hid
    exact ⟨p, hp, by rw [htext]; simp only [messageTextOf, houter, hinner]⟩

/-- Witness for C1 at the concrete nested widget. -/
theorem c1_inner_text_preferred_witness :
    ∃ p, parse_single_post pyHash0 helloWidget "c" = some p ∧ p.text = getTextStrip helloInner :=
  (c1_inner_text_preferred pyHash0 helloWidget helloOuter helloInner "c"
    (by decide) (by rfl)).1 (by rfl)

/-- Claim C3 (amended): the count parsers never raise, satisfy the four
specified test values (for views and subscribers alike, plus the
`"subscribers"`-literal form), and are non-negative whenever the normalised
input carries no `k`/`m` suffix; a signed suffixed input is the one family
where the result can be negative (see the counterexample). -/
theorem c3_count_parsing :
    parse_view_count "1K" = 1000 ∧ parse_view_count "2.5M" = 2500000 ∧
    parse_view_count "43" = 43 ∧ parse_view_count "garbage" = 0 ∧
    parse_subscriber_count "1K" = 1000 ∧ parse_subscriber_count "2.5M" = 2500000 ∧
    parse_subscriber_count "43" = 43 ∧ parse_subscriber_count "garbage" = 0 ∧
    parse_subscriber_count "12.3K subscribers" = 12300 ∧
    (∀ s, pyContains (normalizeCount s) 'k' = false →
      pyContains (normalizeCount s) 'm' = false → 0 ≤ parse_view_count s) ∧
    (∀ s, pyContains (normalizeCount s) 'k' = false →
      pyContains (normalizeCount s) 'm' = false → 0 ≤ parse_subscriber_count s) := by
  refine ⟨by decide, by decide, by decide, by decide, by decide, by decide, by decide, by decide,
    by decide, ?_, ?_⟩
  · intro s h1 h2
    simp only [parse_view_count, h1, h2, Bool.false_eq_true, if_false]
    cases hd : firstDigitRun (normalizeCount s).data with
    | some ds => simp [hd]
    | none => simp [hd]
  · intro s h1 h2
    simp only [parse_subscriber_count, h1, h2, Bool.false_eq_true, if_false]
    cases hd : firstDigitRun (normalizeCount s).data with
    | some ds => simp [hd]
    | none => simp [hd]

/-- Witness for C3 at the suffix-free input `"43"`. -/
theorem c3_count_parsing_witness :
    0 ≤ parse_view_count "43" ∧ 0 ≤ parse_subscriber_count "43" := by
  obtain ⟨_, _, _, _, _, _, _, _, _, hv, hs⟩ := c3_count_parsing
  exact ⟨hv "43" (by decide) (by decide), hs "43" (by decide) (by decide)⟩

/-- Counterexample to C3 as stated: the parsers accept a leading sign in the
suffixed branches, so the result is not always non-negative. -/
theorem c3_counterexample :
    parse_view_count "-2K" = -2000 ∧ parse_subscriber_count "-2K" = -2000 ∧
    parse_view_count "-2K" < 0 := by
  exact ⟨by decide, by decide, by decide⟩

/-! ### Claim C7: the result cache -/

/-- Claim C7: `set` followed at once by `get` returns the stored value and
leaves the state unchanged; `get` on an entry whose age exceeds the TTL
evicts it and returns nothing; `set` unconditionally overwrites value and
timestamp for its key, whatever the prior entry's age. -/
theorem c7_cache_ops {α : Type} :
    (∀ (s : DataCache α) (now : Nat) (k : String) (v : α),
      cacheGet (cacheSet s now k v) now k = (some v, cacheSet s now k v)) ∧
    (∀ (s : DataCache α) (now ts : Nat) (k : String) (v : α),
      List.lookup k s.cache = some v → List.lookup k s.timestamps = some ts →
      cache_ttl < now - ts →
      cacheGet s now k =
        (none, { cache := dictDel s.cache k, timestamps := dictDel s.timestamps k }) ∧
      List.lookup k (cacheGet s now k).2.cache = none) ∧
    (∀ (s : DataCache α) (now : Nat) (k : String) (v : α),
      List.lookup k (cacheSet s now k v).cache = some v ∧
      List.lookup k (cacheSet s now k v).timestamps = some now) := by
  refine ⟨?_, ?_, ?_⟩
  · intro s now k v
    have h1 : List.lookup k (cacheSet s now k v).cache = some v :=
      lookup_dictSet_self k v s.cache
    have h2 : List.lookup k (cacheSet s now k v).timestamps = some now :=
      lookup_dictSet_self k now s.timestamps
    simp only [cacheGet, h1, h2, Nat.sub_self]
    rw [if_pos (by decide : 0 < cache_ttl)]
  · intro s now ts k v hc ht httl
    have hlt : ¬ (now - ts < cache_ttl) := by omega
    constructor
    · simp only [cacheGet, hc, ht, if_neg hlt]
    · simp only [cacheGet, hc, ht, if_neg hlt]
      exact lookup_dictDel_self k s.cache
  · intro s now k v
    exact ⟨lookup_dictSet_self k v s.cache, lookup_dictSet_self k now s.timestamps⟩

/-- Witness for C7: a fresh set-then-get round trip, and an eviction of an
entry that is 4000 seconds old at TTL 3600. -/
theorem c7_cache_ops_witness :
    cacheGet (cacheSet (⟨[], []⟩ : DataCache Nat) 5 "k" 7) 5 "k" =
      (some 7, cacheSet (⟨[], []⟩ : DataCache Nat) 5 "k" 7) ∧
    cacheGet (⟨[("k", 7)], [("k", 0)]⟩ : DataCache Nat) 4000 "k" = (none, ⟨[], []⟩) := by
  constructor
  · exact c7_cache_ops.1 ⟨[], []⟩ 5 "k" 7
  · have h := (c7_cache_ops.2.1 (⟨[("k", 7)], [("k", 0)]⟩ : DataCache Nat) 4000 0 "k" 7
      (by decide) (by decide) (by decide)).1
    rw [h]
    decide

/-! ### Claim C10: success flag versus channel info -/

/-- Claim C10: in both strategies a single-channel scrape reports
`success = true` exactly when the channel-info sub-result is non-null; the
posts list has no influence — channel info with zero posts is a success, a
failed info fetch with a non-empty posts list is not. -/
theorem c10_success_iff_info :
    (∀ (pyHash : String → Int) (fetched : Option Node) (ch : String),
      ((html_scrape_channel pyHash fetched ch).success = true ↔
        (html_scrape_channel pyHash fetched ch).channel_info.isSome = true)) ∧
    (∀ (info : PyResult (Option ChannelInfo)) (posts : PyResult (List Post)),
      ((mt_scrape_channel info posts).success = true ↔
        (mt_scrape_channel info posts).channel_info.isSome = true)) ∧
    (∀ (info : PyResult (Option ChannelInfo)) (posts posts' : PyResult (List Post)),
      (mt_scrape_channel info posts).success = (mt_scrape_channel info posts').success) ∧
    (mt_scrape_channel (.ok (some sampleInfo)) (.ok [])).success = true ∧
    (mt_scrape_channel (.exn "boom") (.ok [samplePost])).success = false := by
  refine ⟨?_, ?_, ?_, rfl, rfl⟩
  · intro pyHash fetched ch
    cases fetched with
    | none => simp [html_scrape_channel]
    | some page => simp [html_scrape_channel, parse_channel_info]
  · intro info posts
    cases info with
    | ok i => cases i <;> simp [mt_scrape_channel]
    | exn m => simp [mt_scrape_channel]
  · intro info posts posts'
    rfl

/-! ### Claim C2: post ordering -/

/-- Claim C2 (amended): the page parser returns the dated posts first,
sorted by their date string in non-increasing (descending) order — a stable
sort, so posts with equal timestamps keep their encounter order — followed
by the undated posts in encounter order, the whole list truncated to the
configured maximum of 50. -/
theorem c2_post_ordering (pyHash : String → Int) (page : Node) (ch : String) :
    parse_channel_posts pyHash page ch =
      (sortDesc dateKey ((rawPosts pyHash page ch).filter dateTruthy) ++
        (rawPosts pyHash page ch).filter (fun p => !dateTruthy p)).take posts_limit ∧
    List.Pairwise (fun a b => charsLe (dateKey b).data (dateKey a).data = true)
      (sortDesc dateKey ((rawPosts pyHash page ch).filter dateTruthy)) ∧
    List.Perm (sortDesc dateKey ((rawPosts pyHash page ch).filter dateTruthy))
      ((rawPosts pyHash page ch).filter dateTruthy) ∧
    ∀ K : String,
      (sortDesc dateKey ((rawPosts pyHash page ch).filter dateTruthy)).filter
          (fun p => dateKey p == K) =
        ((rawPosts pyHash page ch).filter dateTruthy).filter (fun p => dateKey p == K) :=
  ⟨rfl, sortDesc_pairwise _ _, sortDesc_perm _ _, fun K => sortDesc_filter _ K _⟩

/-- Counterexample to C2 as stated: with two equal timestamps the returned
list is not *strictly* descending — the two dates coincide, and a string is
never strictly below itself. -/
theorem c2_counterexample :
    (parse_channel_posts pyHash0 tiePage "c").map Post.date =
      [some "2024-01-01T00:00:00+00:00", some "2024-01-01T00:00:00+00:00"] ∧
    charsLt "2024-01-01T00:00:00+00:00".data "2024-01-01T00:00:00+00:00".data = false := by
  exact ⟨by rfl, by decide⟩

/-! ### Claim C6: textless posts -/

/-- Counterexample to C6 as stated: the backend markup parser
(`TelegramHTMLParser`) emits a post with empty text for a container with no
extractable text instead of discarding it. -/
theorem c6_counterexample :
    (parse_channel_posts pyHash0 textlessPage "c").map Post.text = [""] ∧
    (parse_channel_posts pyHash0 textlessPage "c").length = 1 :=
  ⟨rfl, rfl⟩

/-- Every post the serverless per-block loop keeps has non-empty text. -/
theorem collect_posts_text_ne_empty :
    ∀ (bs : List Latest.MsgBlock) (p : Latest.LPost),
      p ∈ Latest.collect_posts bs → p.text ≠ "" := by
  intro bs
  induction bs with
  | nil => intro p hp; simp [Latest.collect_posts] at hp
  | cons b rest ih =>
    intro p hp
    simp only [Latest.collect_posts] at hp
    by_cases ht : Latest.extract_text b = ""
    · rw [if_pos ht] at hp
      exact ih p hp
    · rw [if_neg ht] at hp
      cases hd : b.dateAttr with
      | none => simp only [hd] at hp; exact ih p hp
      | some d =>
        simp only [hd] at hp
        by_cases hde : d = ""
        · rw [if_pos hde] at hp; exact ih p hp
        · rw [if_neg hde] at hp
          rcases List.mem_cons.mp hp with rfl | hp
          · exact ht
          · exact ih p hp

/-- Claim C6 (amended): on the *serverless* markup path every emitted post
has non-empty text — containers with no extractable text are discarded — and
on the demo channel (T-1h, T-3h textless, T-2h) the normalised list is
exactly [T-1h, T-2h]; the backend parser instead retains such posts with
empty text (see the counterexample). -/
theorem c6_nonempty_text :
    (∀ (blocks : List Latest.MsgBlock) (p : Latest.LPost),
      p ∈ Latest.parse_posts blocks → p.text ≠ "") ∧
    Latest.parse_posts demoBlocks = [demoPost1, demoPost3] := by
  constructor
  · intro blocks p hp
    rw [Latest.parse_posts] at hp
    have hc : p ∈ Latest.collect_posts (blocks.take 20) :=
      (sortDesc_perm (fun q : Latest.LPost => q.date)
        (Latest.collect_posts (blocks.take 20))).mem_iff.mp hp
    exact collect_posts_text_ne_empty _ p hc
  · rfl

/-- Witness for C6 at the demo channel's head post. -/
theorem c6_nonempty_text_witness :
    demoPost1 ∈ Latest.parse_posts demoBlocks ∧ demoPost1.text ≠ "" :=
  ⟨by decide, c6_nonempty_text.1 demoBlocks demoPost1 (by decide)⟩

/-! ### Claim C8: the 300-character cap -/

/-- Counterexample to C8 as stated: the backend markup parser stores a
301-character text unchanged — no 300-character cap, no ellipsis. -/
theorem c8_counterexample :
    (parse_single_post pyHash0 longWidget "c").map Post.text = some longText ∧
    300 < longText.data.length ∧
    longText ≠ Latest.strTake 300 longText ++ "..." := by
  exact ⟨by rfl, by decide, by decide⟩

/-- Claim C8 (amended): on the *serverless* markup path the cleaned text is
capped at 300 characters with `'...'` appended whenever it is longer, and
kept as is otherwise; the backend markup parser stores the extracted text
unchanged, with no cap (see the counterexample). -/
theorem c8_truncation :
    (∀ (b : Latest.MsgBlock) (raw : String), Latest.text_match b = some raw →
      (300 < (Latest.clean_text raw).data.length →
        Latest.extract_text b = Latest.strTake 300 (Latest.clean_text raw) ++ "...") ∧
      ((Latest.clean_text raw).data.length ≤ 300 →
        Latest.extract_text b = Latest.clean_text raw)) ∧
    (∀ (pyHash : String → Int) (widget : Node) (ch : String) (p : Post),
      parse_single_post pyHash widget ch = some p → p.text = messageTextOf widget) := by
  constructor
  · intro b raw hm
    constructor
    · intro hlen
      simp only [Latest.extract_text, hm, if_pos hlen]
    · intro hlen
      simp only [Latest.extract_text, hm,
        if_neg (by omega : ¬ 300 < (Latest.clean_text raw).data.length)]
  · intro pyHash widget ch p hp
    by_cases hid : lastSegment (attrGetD widget "data-post" "") '/' = ""
    · simp only [parse_single_post, if_pos hid] at hp
      exact absurd hp (by simp)
    · simp only [parse_single_post, if_neg hid] at hp
      have hrec := Option.some.inj hp
      rw [← hrec]

/-- Witness for C8: the 301-character block is truncated to 300 characters
plus the ellipsis marker. -/
theorem c8_truncation_witness :
    Latest.extract_text longBlock = Latest.strTake 300 (Latest.clean_text longText) ++ "..." :=
  (c8_truncation.1 longBlock longText rfl).1 (by decide)

/-! ### Helper lemmas: the orchestrator's strategies -/

theorem writesTo_append (a b : List FileWrite) (f : String) :
    writesTo (a ++ b) f = writesTo a f ++ writesTo b f := by
  simp [writesTo, List.filter_append]

theorem finalContent_append_single (ws : List FileWrite) (w : FileWrite) (f : String) :
    finalContent (ws ++ [w]) f =
      if w.file == f then some w.doc else finalContent ws f := by
  by_cases h : (w.file == f) = true
  · rw [if_pos h, finalContent, writesTo, List.filter_append, List.map_append]
    simp only [List.filter_cons, h, if_true, List.filter_nil, List.map_cons, List.map_nil]
    exact List.getLast?_concat _
  · rw [if_neg h, finalContent, writesTo, List.filter_append, List.map_append]
    simp only [List.filter_cons, h, if_false, Bool.false_eq_true, List.filter_nil,
      List.map_nil, List.append_nil]
    rfl

theorem scrape_with_mtproto_writes (mtE initOk : Bool) (channels : List String)
    (per : String → PyResult ScrapeOutcome) :
    (scrape_with_mtproto mtE initOk channels per).2 =
      if mtE && initOk then
        [{ file := "channels_data.json", doc := mt_results channels per }]
      else [] := by
  cases mtE <;> cases initOk <;>
    simp [scrape_with_mtproto, mt_scrape_all_channels]

theorem scrape_with_mtproto_some {mtE initOk : Bool} {channels : List String}
    {per : String → PyResult ScrapeOutcome} {r : List (String × ScrapeOutcome)}
    (h : (scrape_with_mtproto mtE initOk channels per).1 = some r) :
    r = mt_results channels per := by
  cases mtE with
  | false => simp [scrape_with_mtproto] at h
  | true =>
    cases initOk with
    | false => simp [scrape_with_mtproto, mt_scrape_all_channels] at h
    | true =>
      simp only [scrape_with_mtproto, mt_scrape_all_channels, if_true] at h
      split at h
      · exact (Option.some.inj h).symm
      · exact absurd h (by simp)

theorem scrape_with_html_writes (htmlE : Bool) (pyHash : String → Int) (channels : List String)
    (fetch : String → Option Node) :
    (scrape_with_html htmlE pyHash channels fetch).2 =
      if htmlE then
        [{ file := "channels_data_html.json",
           doc := (html_scrape_all_channels pyHash channels fetch).1 }]
      else [] := by
  cases htmlE <;> simp [scrape_with_html, html_scrape_all_channels]

theorem scrape_with_html_some {htmlE : Bool} {pyHash : String → Int} {channels : List String}
    {fetch : String → Option Node} {r : List (String × ScrapeOutcome)}
    (h : (scrape_with_html htmlE pyHash channels fetch).1 = some r) :
    r = (html_scrape_all_channels pyHash channels fetch).1 := by
  cases htmlE with
  | false => simp [scrape_with_html] at h
  | true =>
    simp only [scrape_with_html, if_true] at h
    split at h
    · exact (Option.some.inj h).symm
    · exact absurd h (by simp)

theorem lookup_none_of_keys {β : Type} (k : String) :
    ∀ m : List (String × β), (∀ e ∈ m, e.1 ≠ k) → List.lookup k m = none := by
  intro m
  induction m with
  | nil => intro _; rfl
  | cons e es ih =>
    intro h
    obtain ⟨a, b⟩ := e
    rw [lookupCons, if_neg (by
      simp only [beq_iff_eq]
      intro hh
      exact (h (a, b) (List.mem_cons_self _ _)) (by simp [hh.symm]))]
    exact ih (fun e he => h e (List.mem_cons_of_mem _ he))

/-- What a successful orchestrator run looks like: the surviving strategy's
result map `r` is nonempty, the returned dict is `r` (tagged as channel
records) with `_metadata` appended, and the last write to
`channels_data.json` carries exactly `r`, without the metadata. -/
theorem scrape_all_some {mtE htmlE initOk : Bool} {per : String → PyResult ScrapeOutcome}
    {pyHash : String → Int} {channels : List String} {fetch : String → Option Node}
    {doc : List (String × Entry)}
    (h : (scrape_all mtE htmlE initOk per pyHash channels fetch).1 = some doc) :
    ∃ r, (r = mt_results channels per ∨ r = (html_scrape_all_channels pyHash channels fetch).1) ∧
      r ≠ [] ∧
      doc = r.map (fun e => (e.1, Entry.chan e.2)) ++
        [("_metadata", Entry.meta (runMeta mtE htmlE))] ∧
      finalContent (scrape_all mtE htmlE initOk per pyHash channels fetch).2
        "channels_data.json" = some r := by
  cases hmt : (scrape_with_mtproto mtE initOk channels per).1 with
  | some r0 =>
    by_cases hne : r0.isEmpty
    · simp only [scrape_all, hmt, hne, if_true] at h
      exact absurd h (by simp)
    · refine ⟨r0, Or.inl (scrape_with_mtproto_some hmt), List.isEmpty_eq_false.mp (by
        exact Bool.eq_false_iff.mpr hne), ?_, ?_⟩
      · simp only [scrape_all, hmt, hne, Bool.false_eq_true, if_false] at h
        exact (Option.some.inj h).symm
      · simp only [scrape_all, hmt, hne, Bool.false_eq_true, if_false]
        rw [finalContent_append_single]
        simp
  | none =>
    cases hh : (scrape_with_html htmlE pyHash channels fetch).1 with
    | none =>
      simp only [scrape_all, hmt, hh] at h
      exact absurd h (by simp)
    | some r1 =>
      by_cases hne : r1.isEmpty
      · simp only [scrape_all, hmt, hh, hne, if_true] at h
        exact absurd h (by simp)
      · refine ⟨r1, Or.inr (scrape_with_html_some hh), List.isEmpty_eq_false.mp (by
          exact Bool.eq_false_iff.mpr hne), ?_, ?_⟩
        · simp only [scrape_all, hmt, hh, hne, Bool.false_eq_true, if_false] at h
          exact (Option.some.inj h).symm
        · simp only [scrape_all, hmt, hh, hne, Bool.false_eq_true, if_false]
          rw [finalContent_append_single]
          simp

/-! ### Claims C4, C5, C9: the orchestrator -/

/-- Claim C4 (amended): whenever the structured strategy yields nothing and
the markup strategy scrapes at least one channel, the persisted output is
the markup result map, the markup parser was invoked for every configured
channel, and every *successful* per-channel record carries the provenance
tag `parser = "html"` (records whose page fetch failed carry `success =
false` and no tag — see the counterexample). -/
theorem c4_markup_fallback (mtE initOk : Bool) (per : String → PyResult ScrapeOutcome)
    (pyHash : String → Int) (channels : List String) (fetch : String → Option Node)
    (hmt : (scrape_with_mtproto mtE initOk channels per).1 = none)
    (hs : 0 < successCount (html_scrape_all_channels pyHash channels fetch).1) :
    finalContent (scrape_all mtE true initOk per pyHash channels fetch).2 "channels_data.json" =
      some (html_scrape_all_channels pyHash channels fetch).1 ∧
    (∀ ch ∈ channels,
      List.lookup ch (html_scrape_all_channels pyHash channels fetch).1 =
        some (html_scrape_channel pyHash (fetch ch) ch)) ∧
    (∀ ch o, (ch, o) ∈ (html_scrape_all_channels pyHash channels fetch).1 →
      o.success = true → o.parser = some "html") := by
  have hhtml1 : (scrape_with_html true pyHash channels fetch).1 =
      some (html_scrape_all_channels pyHash channels fetch).1 := by
    simp only [scrape_with_html, if_true]
    rw [if_pos hs]
  have hne : ((html_scrape_all_channels pyHash channels fetch).1).isEmpty = false := by
    rw [List.isEmpty_eq_false]
    intro he
    rw [successCount, he] at hs
    simp at hs
  refine ⟨?_, ?_, ?_⟩
  · simp only [scrape_all, hmt, hhtml1, hne, Bool.false_eq_true, if_false]
    rw [finalContent_append_single]
    simp
  · intro ch hch
    exact lookup_map_pair (fun c => html_scrape_channel pyHash (fetch c) c) ch channels hch
  · intro ch o hmem hsucc
    obtain ⟨c, hc, heq⟩ := List.mem_map.mp hmem
    obtain ⟨hc1, hc2⟩ := Prod.mk.injEq .. ▸ heq
    cases hf : fetch c with
    | none =>
      rw [← hc2, hf] at hsucc
      simp [html_scrape_channel] at hsucc
    | some page =>
      rw [← hc2, hf]
      rfl

/-- Witness for C4: markup fallback with a single, successfully fetched
channel. -/
theorem c4_markup_fallback_witness :
    List.lookup "a" (html_scrape_all_channels pyHash0 ["a"] oneFetch).1 =
      some (html_scrape_channel pyHash0 (oneFetch "a") "a") :=
  (c4_markup_fallback false false cxPer pyHash0 ["a"] oneFetch rfl (by decide)).2.1 "a"
    (by decide)

/-- Counterexample to C4 as stated: in a fallback run where channel `"b"`'s
page fetch fails, the persisted output still contains a record for `"b"`,
and that record carries no `parser` tag at all. -/
theorem c4_counterexample :
    ((finalContent (scrape_all false true false cxPer pyHash0 ["a", "b"] cxFetch).2
        "channels_data.json").bind (fun m => List.lookup "b" m)) =
      some { channel_info := none, posts := [], success := false, parser := none,
             error := some "Failed to fetch channel HTML" } ∧
    ({ channel_info := none, posts := [], success := false, parser := none,
       error := some "Failed to fetch channel HTML" } : ScrapeOutcome).parser ≠ some "html" := by
  exact ⟨by rfl, by decide⟩

/-- Claim C5 (amended): when both strategies yield zero successful channels
the orchestrator returns the aggregate error record and persists nothing
itself; the durable `channels_data.json` is written during the run exactly
when the structured client was enabled *and* initialised — in that case the
structured scraper has already overwritten it with its per-channel failure
records before the orchestrator declared the run failed. -/
theorem c5_total_failure (mtE htmlE initOk : Bool) (per : String → PyResult ScrapeOutcome)
    (pyHash : String → Int) (channels : List String) (fetch : String → Option Node)
    (hmt : (scrape_with_mtproto mtE initOk channels per).1 = none)
    (hh : (scrape_with_html htmlE pyHash channels fetch).1 = none) :
    (scrape_all mtE htmlE initOk per pyHash channels fetch).1 = none ∧
    writesTo (scrape_all mtE htmlE initOk per pyHash channels fetch).2 "channels_data.json" =
      (if mtE && initOk then [mt_results channels per] else []) := by
  have hall : scrape_all mtE htmlE initOk per pyHash channels fetch =
      (none, (scrape_with_mtproto mtE initOk channels per).2 ++
        (scrape_with_html htmlE pyHash channels fetch).2) := by
    simp only [scrape_all, hmt, hh]
  rw [hall]
  refine ⟨rfl, ?_⟩
  rw [writesTo_append, scrape_with_mtproto_writes, scrape_with_html_writes]
  cases mtE <;> cases initOk <;> cases htmlE <;>
    simp [writesTo, List.filter_cons,
      show (("channels_data_html.json" : String) == "channels_data.json") = false from by decide,
      show (("channels_data.json" : String) == "channels_data.json") = true from by decide]

/-- Witness for C5: structured client initialises but every channel raises,
markup fetches nothing — the run fails, yet the structured scraper has
already written its failure map to the durable file. -/
theorem c5_total_failure_witness :
    (scrape_all true true true cxPer pyHash0 ["a"] noFetch).1 = none ∧
    writesTo (scrape_all true true true cxPer pyHash0 ["a"] noFetch).2 "channels_data.json" =
      [mt_results ["a"] cxPer] := by
  have h := c5_total_failure true true true cxPer pyHash0 ["a"] noFetch (by rfl) (by rfl)
  simpa using h

/-- Counterexample to C5 as stated: in the same run the durable file is
*not* left unmodified — it receives the structured scraper's failure map
even though both strategies yielded zero successes. -/
theorem c5_counterexample :
    (scrape_all true true true cxPer pyHash0 ["a"] noFetch).1 = none ∧
    writesTo (scrape_all true true true cxPer pyHash0 ["a"] noFetch).2 "channels_data.json" =
      [[("a", mt_error_outcome "boom")]] :=
  ⟨rfl, rfl⟩

/-- Claim C9 (amended): after every successful run the dictionary the
orchestrator *returns* contains the sibling key `_metadata`, holding the
run-level provenance flags (scraper type, structured and markup
availability) and not itself a channel record; the *persisted* JSON document
is written before the metadata is attached and therefore contains no
`_metadata` key (see the counterexample). -/
theorem c9_metadata (mtE htmlE initOk : Bool) (per : String → PyResult ScrapeOutcome)
    (pyHash : String → Int) (channels : List String) (fetch : String → Option Node)
    (doc : List (String × Entry))
    (hrun : (scrape_all mtE htmlE initOk per pyHash channels fetch).1 = some doc)
    (hch : ∀ ch ∈ channels, ch ≠ "_metadata") :
    List.lookup "_metadata" doc = some (Entry.meta (runMeta mtE htmlE)) ∧
    (∀ o : ScrapeOutcome, List.lookup "_metadata" doc ≠ some (Entry.chan o)) ∧
    (∀ m, finalContent (scrape_all mtE htmlE initOk per pyHash channels fetch).2
        "channels_data.json" = some m → List.lookup "_metadata" m = none) := by
  obtain ⟨r, hsrc, hne, hdoc, hfinal⟩ := scrape_all_some hrun
  have hkeys : ∀ e ∈ r, e.1 ≠ "_metadata" := by
    intro e he
    rcases hsrc with rfl | rfl
    · obtain ⟨c, hc, heq⟩ := List.mem_map.mp he
      rw [← heq]
      exact hch c hc
    · obtain ⟨c, hc, heq⟩ := List.mem_map.mp he
      rw [← heq]
      exact hch c hc
  have hlookA : List.lookup "_metadata" (r.map (fun e => (e.1, Entry.chan e.2))) = none := by
    apply lookup_none_of_keys
    intro e he
    obtain ⟨e0, he0, heq⟩ := List.mem_map.mp he
    rw [← heq]
    exact hkeys e0 he0
  have hmeta : List.lookup "_metadata" doc = some (Entry.meta (runMeta mtE htmlE)) := by
    rw [hdoc, lookup_append_of_none _ _ _ hlookA, lookupCons, if_pos (by simp)]
  refine ⟨hmeta, ?_, ?_⟩
  · intro o hcontra
    rw [hmeta] at hcontra
    exact absurd (Option.some.inj hcontra) (by simp)
  · intro m hm
    rw [hfinal] at hm
    rw [← Option.some.inj hm]
    exact lookup_none_of_keys _ r hkeys

/-- Witness for C9 on a concrete successful run. -/
theorem c9_metadata_witness :
    List.lookup "_metadata" demoRunDoc = some (Entry.meta (runMeta false true)) :=
  (c9_metadata false true false cxPer pyHash0 ["a"] oneFetch demoRunDoc (by rfl)
    (by decide)).1

/-- Counterexample to C9 as stated: on the same successful run the
*persisted* document — the last content written to `channels_data.json` —
has no `_metadata` key: the metadata is attached to the returned dict only
after the dump. -/
theorem c9_counterexample :
    finalContent (scrape_all false true false cxPer pyHash0 ["a"] oneFetch).2
        "channels_data.json" =
      some [("a", html_scrape_channel pyHash0 (some emptyPage) "a")] ∧
    List.lookup "_metadata" [("a", html_scrape_channel pyHash0 (some emptyPage) "a")] = none :=
  ⟨rfl, rfl⟩


/-- Witness for C2: the stability equation instantiated on the concrete
two-post page at the shared timestamp. -/
theorem c2_post_ordering_witness :
    (sortDesc dateKey ((rawPosts pyHash0 tiePage "c").filter dateTruthy)).filter
        (fun p => dateKey p == "2024-01-01T00:00:00+00:00") =
      ((rawPosts pyHash0 tiePage "c").filter dateTruthy).filter
        (fun p => dateKey p == "2024-01-01T00:00:00+00:00") :=
  (c2_post_ordering pyHash0 tiePage "c").2.2.2 "2024-01-01T00:00:00+00:00"

/-- Witness for C10: the equivalence instantiated on a fetched page. -/
theorem c10_success_iff_info_witness :
    (html_scrape_channel pyHash0 (some emptyPage) "a").success = true ↔
      (html_scrape_channel pyHash0 (some emptyPage) "a").channel_info.isSome = true :=
  c10_success_iff_info.1 pyHash0 (some emptyPage) "a"
